import Mathlib

/-!
Shallow embedding of the `openai-api` Rust client library (`src/lib.rs`).

Conventions of the embedding:
* Rust `String`/`&str` become Lean `String`; `u64` becomes `Nat` (the values
  are only carried around, never computed with); `f64` values become `Rat`
  (only the literals `0.0` and `1.0` ever arise, and no arithmetic is done on
  them); `HashMap<String, f64>` becomes an association list.
* Fallible operations return `Except`; a Rust panic (`expect`, out-of-bounds
  indexing) is modelled by `Option`/`none` at the point where it can occur.
* JSON bodies are modelled by an inductive `Json` value; the serde-derived
  deserializers of the concrete response types are written out explicitly,
  field by field, following the struct declarations in the source.
* The HTTP layer is modelled by passing the server response (status code
  plus already-decoded JSON body) as an explicit argument to the transport
  routines, which otherwise mirror the source line by line.
-/

set_option autoImplicit false

namespace OpenaiApi

/-- JSON values, as produced by the wire codec. -/
inductive Json where
  | null
  | bool (b : Bool)
  | num (n : Int)
  | str (s : String)
  | arr (elems : List Json)
  | obj (fields : List (String × Json))

/-- Field lookup in a JSON object, as serde does when deserializing a struct. -/
def Json.getField (j : Json) (name : String) : Except String Json :=
  match j with
  | .obj fields =>
    match fields.lookup name with
    | some v => Except.ok v
    | none => Except.error ("missing field " ++ name)
  | _ => Except.error "invalid type: expected an object"

/-- Deserializing a JSON value into a (mandatory) string, as serde does for a
`String`-typed struct field: anything but a JSON string (in particular
`null`) is a type error. -/
def deserStr (j : Json) : Except String String :=
  match j with
  | .str s => Except.ok s
  | _ => Except.error "invalid type: expected a string"

/-- Deserializing a JSON array elementwise, as serde does for a `Vec` field. -/
def deserArray {α : Type} (elemDeser : Json → Except String α) (j : Json) :
    Except String (List α) :=
  match j with
  | .arr elems => elems.mapM elemDeser
  | _ => Except.error "invalid type: expected a sequence"

/-- `api::Container<T>`: page container with the items in `data`. -/
structure Container (T : Type) where
  data : List T
  deriving Repr, DecidableEq

/-- `api::ModelInfo`: detailed information on a particular model. -/
structure ModelInfo where
  id : String
  owned_by : String
  object : String
  deriving Repr, DecidableEq

/-- Serde-derived `Deserialize` for `ModelInfo`: every field is a mandatory
JSON string. -/
def ModelInfo.deserialize (j : Json) : Except String ModelInfo := do
  let id ← deserStr (← j.getField "id")
  let owned_by ← deserStr (← j.getField "owned_by")
  let object ← deserStr (← j.getField "object")
  Except.ok ⟨id, owned_by, object⟩

/-- Serde-derived `Deserialize` for `Container<T>`: the mandatory `data`
field is a JSON array of `T`. -/
def Container.deserialize {α : Type} (elemDeser : Json → Except String α)
    (j : Json) : Except String (Container α) := do
  let data ← deserArray elemDeser (← j.getField "data")
  Except.ok ⟨data⟩

/-- `api::ErrorMessage`: error response object from the server. The field
`status_code` is serde-renamed to the wire key `code` and is a mandatory
string. -/
structure ErrorMessage where
  message : String
  status_code : String
  deriving Repr, DecidableEq

/-- Serde-derived `Deserialize` for `ErrorMessage`: both `message` and `code`
must be JSON strings; in particular a `null` value for `code` is a type
error. -/
def ErrorMessage.deserialize (j : Json) : Except String ErrorMessage := do
  let message ← deserStr (← j.getField "message")
  let status_code ← deserStr (← j.getField "code")
  Except.ok ⟨message, status_code⟩

/-- `api::ErrorWrapper`: API-level wrapper used in deserialization. -/
structure ErrorWrapper where
  error : ErrorMessage
  deriving Repr, DecidableEq

/-- Serde-derived `Deserialize` for `ErrorWrapper`. -/
def ErrorWrapper.deserialize (j : Json) : Except String ErrorWrapper := do
  let error ← ErrorMessage.deserialize (← j.getField "error")
  Except.ok ⟨error⟩

/-- `api::ChatRole`. -/
inductive ChatRole where
  | System
  | User
  | Assistant
  deriving Repr, DecidableEq

/-- The `Debug` rendering of a `ChatRole`, as derived in the source. -/
def ChatRole.debugStr : ChatRole → String
  | .System => "System"
  | .User => "User"
  | .Assistant => "Assistant"

/-- `api::ChatFormat`: one conversation turn. -/
structure ChatFormat where
  role : ChatRole
  content : String
  deriving Repr, DecidableEq

/-- `ChatFormat::new`. -/
def ChatFormat.new (role : ChatRole) (content : String) : ChatFormat :=
  ⟨role, content⟩

/-- The `Display` rendering of a `ChatFormat`:
`write!(f, "role: \x7b:?\x7d, content: \x7b\x7d", self.role, self.content)`. -/
def ChatFormat.displayStr (m : ChatFormat) : String :=
  "role: " ++ m.role.debugStr ++ ", content: " ++ m.content

/-- `api::CompletionArgs`: the finalized completion request configuration. -/
structure CompletionArgs where
  model : String
  prompt : String
  max_tokens : Nat
  temperature : Rat
  top_p : Rat
  n : Nat
  logprobs : Option Nat
  echo : Bool
  stop : Option (List String)
  presence_penalty : Rat
  frequency_penalty : Rat
  logit_bias : List (String × Rat)
  deriving Repr, DecidableEq

/-- `CompletionArgsBuilder` as generated by `derive_builder` (immutable
pattern): every field of `CompletionArgs` wrapped in `Option`, `None`
meaning "not set". -/
structure CompletionArgsBuilder where
  model : Option String := none
  prompt : Option String := none
  max_tokens : Option Nat := none
  temperature : Option Rat := none
  top_p : Option Rat := none
  n : Option Nat := none
  logprobs : Option (Option Nat) := none
  echo : Option Bool := none
  stop : Option (Option (List String)) := none
  presence_penalty : Option Rat := none
  frequency_penalty : Option Rat := none
  logit_bias : Option (List (String × Rat)) := none
  deriving Repr, DecidableEq

/-- `CompletionArgsBuilder::default()`: the all-unset builder. -/
def CompletionArgsBuilder.mkDefault : CompletionArgsBuilder := {}

/-- The error type `CompletionArgsBuilderError` generated by
`derive_builder`. -/
inductive CompletionArgsBuilderError where
  | UninitializedField (field : String)
  | ValidationError (msg : String)
  deriving Repr, DecidableEq

/-- `CompletionArgsBuilder::build()`: each unset field is replaced by its
declared `#[builder(default = ...)]` expression; no field is mandatory and
no validation is performed. -/
def CompletionArgsBuilder.build (b : CompletionArgsBuilder) :
    Except CompletionArgsBuilderError CompletionArgs :=
  Except.ok
    { model := b.model.getD "text-davinci-003"
      prompt := b.prompt.getD "<|endoftext|>"
      max_tokens := b.max_tokens.getD 16
      temperature := b.temperature.getD 1.0
      top_p := b.top_p.getD 1.0
      n := b.n.getD 1
      logprobs := b.logprobs.getD none
      echo := b.echo.getD false
      stop := b.stop.getD none
      presence_penalty := b.presence_penalty.getD 0.0
      frequency_penalty := b.frequency_penalty.getD 0.0
      logit_bias := b.logit_bias.getD [] }

/-- `CompletionArgs::builder()`. -/
def CompletionArgs.builder : CompletionArgsBuilder :=
  CompletionArgsBuilder.mkDefault

/-- Builder setter `model` (named `setModel` because the Lean field accessor
already uses the source name). -/
def CompletionArgsBuilder.setModel (b : CompletionArgsBuilder) (v : String) :
    CompletionArgsBuilder := { b with model := some v }

/-- Builder setter `prompt`. -/
def CompletionArgsBuilder.setPrompt (b : CompletionArgsBuilder) (v : String) :
    CompletionArgsBuilder := { b with prompt := some v }

/-- Builder setter `max_tokens`. -/
def CompletionArgsBuilder.setMaxTokens (b : CompletionArgsBuilder) (v : Nat) :
    CompletionArgsBuilder := { b with max_tokens := some v }

/-- Builder setter `temperature`. -/
def CompletionArgsBuilder.setTemperature (b : CompletionArgsBuilder) (v : Rat) :
    CompletionArgsBuilder := { b with temperature := some v }

/-- Builder setter `top_p`. -/
def CompletionArgsBuilder.setTopP (b : CompletionArgsBuilder) (v : Rat) :
    CompletionArgsBuilder := { b with top_p := some v }

/-- Builder setter `n`. -/
def CompletionArgsBuilder.setN (b : CompletionArgsBuilder) (v : Nat) :
    CompletionArgsBuilder := { b with n := some v }

/-- Builder setter `logprobs` (`strip_option`: takes the bare value). -/
def CompletionArgsBuilder.setLogprobs (b : CompletionArgsBuilder) (v : Nat) :
    CompletionArgsBuilder := { b with logprobs := some (some v) }

/-- Builder setter `echo`. -/
def CompletionArgsBuilder.setEcho (b : CompletionArgsBuilder) (v : Bool) :
    CompletionArgsBuilder := { b with echo := some v }

/-- Builder setter `stop` (`strip_option`: takes the bare value). -/
def CompletionArgsBuilder.setStop (b : CompletionArgsBuilder)
    (v : List String) : CompletionArgsBuilder := { b with stop := some (some v) }

/-- Builder setter `presence_penalty`. -/
def CompletionArgsBuilder.setPresencePenalty (b : CompletionArgsBuilder)
    (v : Rat) : CompletionArgsBuilder := { b with presence_penalty := some v }

/-- Builder setter `frequency_penalty`. -/
def CompletionArgsBuilder.setFrequencyPenalty (b : CompletionArgsBuilder)
    (v : Rat) : CompletionArgsBuilder := { b with frequency_penalty := some v }

/-- Builder setter `logit_bias`. -/
def CompletionArgsBuilder.setLogitBias (b : CompletionArgsBuilder)
    (v : List (String × Rat)) : CompletionArgsBuilder :=
  { b with logit_bias := some v }

/-- `impl From<&str> for CompletionArgs`: `Self { prompt, ..default build }`.
The `.expect("default should build")` panic is modelled by `none`. -/
def CompletionArgs.fromStr (prompt_string : String) : Option CompletionArgs :=
  match CompletionArgsBuilder.mkDefault.build with
  | Except.ok d => some { d with prompt := prompt_string }
  | Except.error _ => none

/-- `impl TryFrom<CompletionArgsBuilder> for CompletionArgs`: delegates to
`builder.build()`. -/
def CompletionArgs.tryFrom (builder : CompletionArgsBuilder) :
    Except CompletionArgsBuilderError CompletionArgs :=
  builder.build

/-- `api::LogProbs`: logprobs subdocument. -/
structure LogProbs where
  tokens : List String
  token_logprobs : List (Option Rat)
  top_logprobs : List (Option (List (String × Rat)))
  text_offset : List Nat
  deriving Repr, DecidableEq

/-- `api::Choice`: a single completion result. -/
structure Choice where
  text : String
  index : Nat
  logprobs : Option LogProbs
  finish_reason : String
  deriving Repr, DecidableEq

/-- The `Display` rendering of a `Choice`: `self.text.fmt(f)`. -/
def Choice.displayStr (c : Choice) : String :=
  c.text

/-- `api::Completion`: a non-streamed completion response. -/
structure Completion where
  id : String
  created : Nat
  model : String
  choices : List Choice
  deriving Repr, DecidableEq

/-- The `Display` rendering of a `Completion`:
`write!(f, "\x7b\x7d", self.choices[0])`. Indexing `self.choices[0]` panics
when `choices` is empty, which is modelled by `none`. -/
def Completion.displayStr (c : Completion) : Option String :=
  (c.choices.get? 0).map Choice.displayStr

/-- `api::ChatChoice`: a single chat completion result. -/
structure ChatChoice where
  message : ChatFormat
  index : Nat
  finish_reason : String
  deriving Repr, DecidableEq

/-- The `Display` rendering of a `ChatChoice`: `self.message.fmt(f)`. -/
def ChatChoice.displayStr (c : ChatChoice) : String :=
  c.message.displayStr

/-- `api::ChatAnswer`: a chat completion response. -/
structure ChatAnswer where
  id : String
  created : Nat
  choices : List ChatChoice
  deriving Repr, DecidableEq

/-- The `Display` rendering of a `ChatAnswer`:
`write!(f, "\x7b\x7d", self.choices[0])`. Indexing `self.choices[0]` panics
when `choices` is empty, which is modelled by `none`. -/
def ChatAnswer.displayStr (a : ChatAnswer) : Option String :=
  (a.choices.get? 0).map ChatChoice.displayStr

/-- `api::ChatArgs`: the finalized chat request configuration. -/
structure ChatArgs where
  model : String
  messages : List ChatFormat
  max_tokens : Option Nat
  temperature : Rat
  top_p : Rat
  n : Nat
  stop : Option (List String)
  presence_penalty : Rat
  frequency_penalty : Rat
  logit_bias : List (String × Rat)
  deriving Repr, DecidableEq

/-- `ChatArgsBuilder` as generated by `derive_builder` (immutable pattern). -/
structure ChatArgsBuilder where
  model : Option String := none
  messages : Option (List ChatFormat) := none
  max_tokens : Option (Option Nat) := none
  temperature : Option Rat := none
  top_p : Option Rat := none
  n : Option Nat := none
  stop : Option (Option (List String)) := none
  presence_penalty : Option Rat := none
  frequency_penalty : Option Rat := none
  logit_bias : Option (List (String × Rat)) := none
  deriving Repr, DecidableEq

/-- `ChatArgsBuilder::default()`: the all-unset builder. -/
def ChatArgsBuilder.mkDefault : ChatArgsBuilder := {}

/-- The error type `ChatArgsBuilderError` generated by `derive_builder`. -/
inductive ChatArgsBuilderError where
  | UninitializedField (field : String)
  | ValidationError (msg : String)
  deriving Repr, DecidableEq

/-- `ChatArgsBuilder::build()`: each unset field is replaced by its declared
default; no field is mandatory and no validation is performed. -/
def ChatArgsBuilder.build (b : ChatArgsBuilder) :
    Except ChatArgsBuilderError ChatArgs :=
  Except.ok
    { model := b.model.getD "gpt-3.5-turbo"
      messages := b.messages.getD []
      max_tokens := b.max_tokens.getD none
      temperature := b.temperature.getD 1.0
      top_p := b.top_p.getD 1.0
      n := b.n.getD 1
      stop := b.stop.getD none
      presence_penalty := b.presence_penalty.getD 0.0
      frequency_penalty := b.frequency_penalty.getD 0.0
      logit_bias := b.logit_bias.getD [] }

/-- `ChatArgs::builder()`. -/
def ChatArgs.builder : ChatArgsBuilder :=
  ChatArgsBuilder.mkDefault

/-- Builder setter `model`. -/
def ChatArgsBuilder.setModel (b : ChatArgsBuilder) (v : String) :
    ChatArgsBuilder := { b with model := some v }

/-- Builder setter `messages`. -/
def ChatArgsBuilder.setMessages (b : ChatArgsBuilder) (v : List ChatFormat) :
    ChatArgsBuilder := { b with messages := some v }

/-- Builder setter `max_tokens` (`strip_option`: takes the bare value). -/
def ChatArgsBuilder.setMaxTokens (b : ChatArgsBuilder) (v : Nat) :
    ChatArgsBuilder := { b with max_tokens := some (some v) }

/-- Builder setter `temperature`. -/
def ChatArgsBuilder.setTemperature (b : ChatArgsBuilder) (v : Rat) :
    ChatArgsBuilder := { b with temperature := some v }

/-- Builder setter `top_p`. -/
def ChatArgsBuilder.setTopP (b : ChatArgsBuilder) (v : Rat) :
    ChatArgsBuilder := { b with top_p := some v }

/-- Builder setter `n`. -/
def ChatArgsBuilder.setN (b : ChatArgsBuilder) (v : Nat) :
    ChatArgsBuilder := { b with n := some v }

/-- Builder setter `stop` (`strip_option`: takes the bare value). -/
def ChatArgsBuilder.setStop (b : ChatArgsBuilder) (v : List String) :
    ChatArgsBuilder := { b with stop := some (some v) }

/-- Builder setter `presence_penalty`. -/
def ChatArgsBuilder.setPresencePenalty (b : ChatArgsBuilder) (v : Rat) :
    ChatArgsBuilder := { b with presence_penalty := some v }

/-- Builder setter `frequency_penalty`. -/
def ChatArgsBuilder.setFrequencyPenalty (b : ChatArgsBuilder) (v : Rat) :
    ChatArgsBuilder := { b with frequency_penalty := some v }

/-- Builder setter `logit_bias`. -/
def ChatArgsBuilder.setLogitBias (b : ChatArgsBuilder)
    (v : List (String × Rat)) : ChatArgsBuilder :=
  { b with logit_bias := some v }

/-- `impl From<Vec<(ChatRole, String)>> for ChatArgs`: map each pair to a
`ChatFormat`, then `Self { messages, ..default build }`. The
`.expect("default should build")` panic is modelled by `none`. -/
def ChatArgs.fromPairs (msg : List (ChatRole × String)) : Option ChatArgs :=
  let msgs := msg.map (fun p => ChatFormat.mk p.1 p.2)
  match ChatArgsBuilder.mkDefault.build with
  | Except.ok d => some { d with messages := msgs }
  | Except.error _ => none

/-- `impl TryFrom<ChatArgsBuilder> for ChatArgs`: delegates to
`builder.build()`. -/
def ChatArgs.tryFrom (builder : ChatArgsBuilder) :
    Except ChatArgsBuilderError ChatArgs :=
  builder.build

/-- The crate-level `Error` enum: an API-reported error or a transport-level
(`reqwest`) failure, the latter carried as its message text. -/
inductive Error where
  | Api (e : ErrorMessage)
  | AsyncProtocol (msg : String)
  deriving Repr, DecidableEq

/-- The canonical reason phrase of an HTTP status code, as in the `http`
crate (`StatusCode::canonical_reason`), for the codes this development
mentions. -/
def canonicalReason (code : Nat) : Option String :=
  match code with
  | 200 => some "OK"
  | 301 => some "Moved Permanently"
  | 400 => some "Bad Request"
  | 401 => some "Unauthorized"
  | 403 => some "Forbidden"
  | 404 => some "Not Found"
  | 429 => some "Too Many Requests"
  | 500 => some "Internal Server Error"
  | 501 => some "Not Implemented"
  | 502 => some "Bad Gateway"
  | 503 => some "Service Unavailable"
  | _ => none

/-- `code.to_string()` on a `reqwest::StatusCode`: the numeric code followed
by its canonical reason phrase. -/
def statusText (code : Nat) : String :=
  toString code ++ " " ++ (canonicalReason code).getD "<unknown status code>"

/-- An HTTP response as seen by the transport routines: the status code and
the JSON-decoded body. -/
structure HttpResponse where
  status : Nat
  body : Json

/-- The held state of a `reqwest::Client`: the default headers fixed at
construction (here, the authorization header). -/
structure ReqwestClient where
  authorization : String
  deriving Repr, DecidableEq

/-- The crate-level `Client`. -/
structure Client where
  client : ReqwestClient
  base_url : String
  deriving Repr, DecidableEq

/-- Whether a byte-sized character is legal inside an `http` crate
`HeaderValue` (`HeaderValue::from_str`): horizontal tab, or any byte that is
at least 32 (space) and is not 127 (DEL); bytes of multi-byte UTF-8
characters are all at least 128 and hence legal. -/
def headerCharValid (c : Char) : Bool :=
  c.toNat == 9 || (32 ≤ c.toNat && c.toNat ≠ 127)

/-- Whether a string is accepted by `HeaderValue::from_str`. -/
def headerValueValid (s : String) : Bool :=
  s.data.all headerCharValid

/-- `Client::new(token)`: builds the `Authorization: Bearer <token>` header.
`HeaderValue::from_str(...).expect("invalid token")` panics on an invalid
header value, modelled by the outer `none`; otherwise the declared
`Result` is returned with the fixed production base URL. -/
def Client.new (token : String) : Option (Except Error Client) :=
  if headerValueValid ("Bearer " ++ token) then
    some (Except.ok
      { client := { authorization := "Bearer " ++ token }
        base_url := "https://api.openai.com/v1/" })
  else
    none

/-- `Client::get::<T>`: private helper for making gets. The response for the
requested URL is passed explicitly. On status 200 the body is parsed as `T`;
on any other status the body is parsed as the error wrapper, the field
`status_code` of the error is overwritten with the textual HTTP status, and the result is
the `Api` error variant. A body that fails to parse surfaces as the
transport (`reqwest`) error variant. -/
def Client.get {α : Type} (self : Client) (endpoint : String)
    (deser : Json → Except String α) (response : HttpResponse) :
    Except Error α :=
  let url := self.base_url ++ endpoint
  if response.status = 200 then
    match deser response.body with
    | Except.ok v => Except.ok v
    | Except.error e => Except.error (Error.AsyncProtocol e)
  else
    let status_code := statusText response.status
    match ErrorWrapper.deserialize response.body with
    | Except.ok w =>
      Except.error (Error.Api { w.error with status_code := status_code })
    | Except.error e => Except.error (Error.AsyncProtocol e)

/-- `Client::post::<B, R>`: private helper for making posts. The request
body is serialized with the given serializer and sent; the response handling
is the same status bifurcation as in `Client::get`. -/
def Client.post {β α : Type} (self : Client) (endpoint : String)
    (serialize : β → Json) (body : β) (deser : Json → Except String α)
    (response : HttpResponse) : Except Error α :=
  let url := self.base_url ++ endpoint
  let _reqBody := serialize body
  if response.status = 200 then
    match deser response.body with
    | Except.ok v => Except.ok v
    | Except.error e => Except.error (Error.AsyncProtocol e)
  else
    let status_code := statusText response.status
    match ErrorWrapper.deserialize response.body with
    | Except.ok w =>
      Except.error (Error.Api { w.error with status_code := status_code })
    | Except.error e => Except.error (Error.AsyncProtocol e)

/-- `Client::models()`: lists the currently available models, unwrapping the
page container. -/
def Client.models (self : Client) (response : HttpResponse) :
    Except Error (List ModelInfo) :=
  (self.get "models" (Container.deserialize ModelInfo.deserialize)
      response).map Container.data

/-- `Client::model(model)`: retrieves one model instance. -/
def Client.model (self : Client) (model : String) (response : HttpResponse) :
    Except Error ModelInfo :=
  self.get ("models/" ++ model) ModelInfo.deserialize response

/-- A concrete client value used to instantiate the transport theorems. -/
def testClient : Client :=
  { client := { authorization := "Bearer bogus" }
    base_url := "https://api.openai.com/v1/" }

/-- The JSON body of the mocked `models` listing:
`\x7b"data":[\x7b"id":"ada","object":"model","owned_by":"openai"\x7d]\x7d`. -/
def modelsListBody : Json :=
  Json.obj [("data", Json.arr [Json.obj
    [("id", Json.str "ada"),
     ("object", Json.str "model"),
     ("owned_by", Json.str "openai")]])]

/-- The mocked 404 response to `GET models/davinci`, with body
`\x7b"error":\x7b"message":"Some kind of error happened","code":null\x7d\x7d`. -/
def resp404davinci : HttpResponse :=
  { status := 404
    body := Json.obj [("error", Json.obj
      [("message", Json.str "Some kind of error happened"),
       ("code", Json.null)])] }

/-- A 400 response whose body is a well-formed error envelope that itself
reports the (bogus) status string `"999"`. -/
def resp400envelope : HttpResponse :=
  { status := 400
    body := Json.obj [("error", Json.obj
      [("message", Json.str "boom"),
       ("code", Json.str "999")])] }

/-- A 200 response whose body is a single `ModelInfo` document. -/
def resp200ada : HttpResponse :=
  { status := 200
    body := Json.obj
      [("id", Json.str "ada"),
       ("object", Json.str "model"),
       ("owned_by", Json.str "openai")] }

end OpenaiApi

namespace OpenaiApi

/-- C1: for every HTTP response handled by `Client::get` or `Client::post`,
the result is the parsed success value exactly when the status is 200 and
the body parses as the success type; for every other status, if the body
parses as the error envelope, the returned value is the service-error
(`Api`) variant whose `status_code` is overwritten with the textual HTTP
status received, regardless of the `status_code` the envelope itself
carried. -/
theorem C1_status_bifurcation {α β : Type} (self : Client) (endpoint : String)
    (deser : Json → Except String α) (serialize : β → Json) (reqBody : β)
    (resp : HttpResponse) :
    (∀ v : α, self.get endpoint deser resp = Except.ok v ↔
      (resp.status = 200 ∧ deser resp.body = Except.ok v)) ∧
    (resp.status ≠ 200 → ∀ w : ErrorWrapper,
      ErrorWrapper.deserialize resp.body = Except.ok w →
      self.get endpoint deser resp =
        Except.error (Error.Api ⟨w.error.message, statusText resp.status⟩)) ∧
    (∀ v : α, self.post endpoint serialize reqBody deser resp = Except.ok v ↔
      (resp.status = 200 ∧ deser resp.body = Except.ok v)) ∧
    (resp.status ≠ 200 → ∀ w : ErrorWrapper,
      ErrorWrapper.deserialize resp.body = Except.ok w →
      self.post endpoint serialize reqBody deser resp =
        Except.error (Error.Api ⟨w.error.message, statusText resp.status⟩)) := by
  refine ⟨?_, ?_, ?_, ?_⟩
  · intro v
    unfold Client.get
    by_cases h : resp.status = 200
    · cases hd : deser resp.body <;> simp [h, hd]
    · cases hw : ErrorWrapper.deserialize resp.body <;> simp [h, hw]
  · intro h w hw
    unfold Client.get
    simp [h, hw]
  · intro v
    unfold Client.post
    by_cases h : resp.status = 200
    · cases hd : deser resp.body <;> simp [h, hd]
    · cases hw : ErrorWrapper.deserialize resp.body <;> simp [h, hw]
  · intro h w hw
    unfold Client.post
    simp [h, hw]

/-- Witness for C1 at concrete inputs: a 200 response parses as the success
type; a 400 response whose envelope reports code `"999"` comes back as the
`Api` variant with `status_code` overwritten to `"400 Bad Request"`, for
both the get and the post routine. -/
theorem C1_status_bifurcation_witness :
    (testClient.get "models/ada" ModelInfo.deserialize resp200ada =
      Except.ok ⟨"ada", "openai", "model"⟩) ∧
    (testClient.get "models/ada" ModelInfo.deserialize resp400envelope =
      Except.error (Error.Api ⟨"boom", "400 Bad Request"⟩)) ∧
    (testClient.post "completions" (fun j : Json => j) Json.null
      ModelInfo.deserialize resp400envelope =
      Except.error (Error.Api ⟨"boom", "400 Bad Request"⟩)) := by
  refine ⟨?_, ?_, ?_⟩
  · exact ((C1_status_bifurcation testClient "models/ada" ModelInfo.deserialize
      (fun j : Json => j) Json.null resp200ada).1 _).mpr ⟨rfl, rfl⟩
  · exact (C1_status_bifurcation testClient "models/ada" ModelInfo.deserialize
      (fun j : Json => j) Json.null resp400envelope).2.1 (by decide) ⟨⟨"boom", "999"⟩⟩ rfl
  · exact (C1_status_bifurcation testClient "completions" ModelInfo.deserialize
      (fun j : Json => j) Json.null resp400envelope).2.2.2 (by decide) ⟨⟨"boom", "999"⟩⟩ rfl

/-- C2: evaluating the code at the input of the claim. On a 404 response to
`GET models/davinci` with body
`\x7b"error":\x7b"message":"Some kind of error happened","code":null\x7d\x7d`,
the `model` operation does NOT return the service error that the claim (and
the repository test `model_error_response`) expects: deserializing the
envelope fails because `"code": null` cannot populate the mandatory string
field `status_code`, so the transport-error (`AsyncProtocol`) variant is
returned instead and the message `"Some kind of error happened"` is lost. -/
theorem C2_model_404_null_code :
    testClient.model "davinci" resp404davinci =
      Except.error (Error.AsyncProtocol "invalid type: expected a string") :=
  rfl

/-- C3: `build()` with no setters called yields exactly the documented
default values for both builders. -/
theorem C3_build_defaults :
    CompletionArgsBuilder.mkDefault.build = Except.ok
      { model := "text-davinci-003"
        prompt := "<|endoftext|>"
        max_tokens := 16
        temperature := 1.0
        top_p := 1.0
        n := 1
        logprobs := none
        echo := false
        stop := none
        presence_penalty := 0.0
        frequency_penalty := 0.0
        logit_bias := [] } ∧
    ChatArgsBuilder.mkDefault.build = Except.ok
      { model := "gpt-3.5-turbo"
        messages := []
        max_tokens := none
        temperature := 1.0
        top_p := 1.0
        n := 1
        stop := none
        presence_penalty := 0.0
        frequency_penalty := 0.0
        logit_bias := [] } :=
  ⟨rfl, rfl⟩

/-- C4: for every prompt string the bare-string conversion succeeds and
produces the same configuration as building with only the `prompt` setter
called; for every pair list the pair-list conversion succeeds and produces
the same configuration as building with only the `messages` setter called. -/
theorem C4_conversions_match_builder (prompt_string : String)
    (pairs : List (ChatRole × String)) :
    (∃ args : CompletionArgs,
      CompletionArgs.fromStr prompt_string = some args ∧
      (CompletionArgs.builder.setPrompt prompt_string).build = Except.ok args) ∧
    (∃ args : ChatArgs,
      ChatArgs.fromPairs pairs = some args ∧
      (ChatArgs.builder.setMessages
        (pairs.map (fun p => ChatFormat.mk p.1 p.2))).build = Except.ok args) :=
  ⟨⟨_, rfl, rfl⟩, ⟨_, rfl, rfl⟩⟩

/-- C5: for every builder state whatsoever (any subset of fields set, to any
values), `build()` succeeds and never returns a validation error, for both
builders. -/
theorem C5_build_never_fails (b : CompletionArgsBuilder) (b2 : ChatArgsBuilder) :
    (∃ args, b.build = Except.ok args) ∧
    (∃ args, b2.build = Except.ok args) :=
  ⟨⟨_, rfl⟩, ⟨_, rfl⟩⟩

/-- C6: the pair-list conversion preserves the conversation verbatim: the
resulting `messages` has the same length as the input and the i-th message
is exactly the role and content of the i-th input pair. -/
theorem C6_messages_order_preserved (pairs : List (ChatRole × String))
    (args : ChatArgs) (h : ChatArgs.fromPairs pairs = some args) :
    args.messages.length = pairs.length ∧
    ∀ i : Nat, (hp : i < pairs.length) →
      args.messages[i]? = some (ChatFormat.mk (pairs[i]).1 (pairs[i]).2) := by
  simp only [ChatArgs.fromPairs] at h
  injection h with h
  subst h
  refine ⟨by simp, ?_⟩
  intro i hp
  simp [List.getElem?_map, List.getElem?_eq_getElem hp]

/-- A concrete two-turn conversation used to instantiate C6. -/
def demoPairs : List (ChatRole × String) :=
  [(ChatRole.System, "be nice"), (ChatRole.User, "hello")]

/-- The `ChatArgs` value the pair-list conversion yields on `demoPairs`. -/
def demoChatArgs : ChatArgs :=
  { model := "gpt-3.5-turbo"
    messages := [⟨ChatRole.System, "be nice"⟩, ⟨ChatRole.User, "hello"⟩]
    max_tokens := none
    temperature := 1.0
    top_p := 1.0
    n := 1
    stop := none
    presence_penalty := 0.0
    frequency_penalty := 0.0
    logit_bias := [] }

/-- Witness for C6 at the concrete two-message conversation. -/
theorem C6_messages_order_preserved_witness :
    demoChatArgs.messages.length = 2 ∧
    demoChatArgs.messages[0]? = some ⟨ChatRole.System, "be nice"⟩ ∧
    demoChatArgs.messages[1]? = some ⟨ChatRole.User, "hello"⟩ := by
  obtain ⟨h2, h3⟩ := C6_messages_order_preserved demoPairs demoChatArgs rfl
  exact ⟨h2, h3 0 (by decide), h3 1 (by decide)⟩

/-- C7: on the mocked `models` listing the page container is unwrapped and
exactly the one-element list is returned; in general, whenever the
underlying get succeeds with a container, `models` returns exactly the
items in the `data` field of the container. -/
theorem C7_models_unwraps_container :
    (∀ self : Client,
      self.models ⟨200, modelsListBody⟩ =
        Except.ok [⟨"ada", "openai", "model"⟩]) ∧
    (∀ (self : Client) (resp : HttpResponse) (cont : Container ModelInfo),
      self.get "models" (Container.deserialize ModelInfo.deserialize) resp =
        Except.ok cont →
      self.models resp = Except.ok cont.data) := by
  constructor
  · intro self
    rfl
  · intro self resp cont h
    unfold Client.models
    rw [h]
    rfl

/-- Witness for C7: the general container-unwrapping part applied at the
concrete mocked listing. -/
theorem C7_models_unwraps_container_witness :
    testClient.models ⟨200, modelsListBody⟩ =
      Except.ok [({ id := "ada", owned_by := "openai", object := "model" } : ModelInfo)] :=
  C7_models_unwraps_container.2 testClient ⟨200, modelsListBody⟩
    ⟨[⟨"ada", "openai", "model"⟩]⟩ rfl

/-- C8: converting a builder directly into its finalized config (the
`TryFrom` conversion) returns exactly the same result as calling `build()`
on it, for both builders. -/
theorem C8_tryFrom_eq_build (b : CompletionArgsBuilder) (b2 : ChatArgsBuilder) :
    CompletionArgs.tryFrom b = b.build ∧ ChatArgs.tryFrom b2 = b2.build :=
  ⟨rfl, rfl⟩

/-- C9: the `Display` formatting of a `Completion` or a `ChatAnswer` is
defined exactly on values with at least one choice, where it renders the
first choice (the text of the choice, resp. the role and content of the
chat message); on an empty `choices` the indexing `self.choices[0]` is out of
bounds (a panic, modelled by `none`). -/
theorem C9_display_first_choice (c : Completion) (ch : Choice)
    (tl : List Choice) (a : ChatAnswer) (cch : ChatChoice)
    (tl2 : List ChatChoice) :
    (c.choices = ch :: tl → c.displayStr = some ch.text) ∧
    (c.choices = [] → c.displayStr = none) ∧
    (a.choices = cch :: tl2 → a.displayStr = some
      ("role: " ++ cch.message.role.debugStr ++ ", content: " ++
        cch.message.content)) ∧
    (a.choices = [] → a.displayStr = none) := by
  refine ⟨?_, ?_, ?_, ?_⟩ <;> intro h <;>
    simp [Completion.displayStr, ChatAnswer.displayStr, Choice.displayStr,
      ChatChoice.displayStr, ChatFormat.displayStr, h]

/-- Witness for C9 at concrete values: a one-choice completion and chat
answer render their first choice; empty-choices values have no defined
rendering. -/
theorem C9_display_first_choice_witness :
    (Completion.mk "cmpl-1" 1589478378 "davinci"
      [Choice.mk "hello" 0 none "stop"]).displayStr = some "hello" ∧
    (Completion.mk "cmpl-1" 1589478378 "davinci" []).displayStr = none ∧
    (ChatAnswer.mk "chat-1" 1589478378
      [ChatChoice.mk (ChatFormat.mk ChatRole.Assistant "hi") 0 "stop"]).displayStr =
      some "role: Assistant, content: hi" ∧
    (ChatAnswer.mk "chat-1" 1589478378 []).displayStr = none := by
  refine ⟨?_, ?_, ?_, ?_⟩
  · exact (C9_display_first_choice _ (Choice.mk "hello" 0 none "stop") []
      (ChatAnswer.mk "chat-1" 1589478378 []) (ChatChoice.mk
        (ChatFormat.mk ChatRole.Assistant "hi") 0 "stop") []).1 rfl
  · exact (C9_display_first_choice (Completion.mk "cmpl-1" 1589478378 "davinci" [])
      (Choice.mk "hello" 0 none "stop") []
      (ChatAnswer.mk "chat-1" 1589478378 []) (ChatChoice.mk
        (ChatFormat.mk ChatRole.Assistant "hi") 0 "stop") []).2.1 rfl
  · exact (C9_display_first_choice (Completion.mk "cmpl-1" 1589478378 "davinci" [])
      (Choice.mk "hello" 0 none "stop") []
      (ChatAnswer.mk "chat-1" 1589478378
        [ChatChoice.mk (ChatFormat.mk ChatRole.Assistant "hi") 0 "stop"])
      (ChatChoice.mk (ChatFormat.mk ChatRole.Assistant "hi") 0 "stop") []).2.2.1 rfl
  · exact (C9_display_first_choice (Completion.mk "cmpl-1" 1589478378 "davinci" [])
      (Choice.mk "hello" 0 none "stop") []
      (ChatAnswer.mk "chat-1" 1589478378 []) (ChatChoice.mk
        (ChatFormat.mk ChatRole.Assistant "hi") 0 "stop") []).2.2.2 rfl

/-- The `"Bearer "` prefix added by `Client::new` consists of header-legal
characters only, so validity of the full header value coincides with
validity of the token. -/
theorem headerValueValid_bearer (token : String) :
    headerValueValid ("Bearer " ++ token) = headerValueValid token := by
  unfold headerValueValid
  rw [String.data_append, List.all_append]
  simp [headerCharValid]

/-- C10: `Client::new` never takes the declared error branch for the
authorization header: on a token made of header-legal characters it returns
`Ok` with the production base URL and the fixed bearer header; on a token
with a header-illegal character it panics (modelled by `none`) instead of
returning `Err`. -/
theorem C10_new_never_errs (token : String) :
    (headerValueValid token = true →
      Client.new token = some (Except.ok
        { client := { authorization := "Bearer " ++ token }
          base_url := "https://api.openai.com/v1/" })) ∧
    (headerValueValid token = false → Client.new token = none) ∧
    (∀ e : Error, Client.new token ≠ some (Except.error e)) := by
  refine ⟨?_, ?_, ?_⟩
  · intro h
    unfold Client.new
    rw [headerValueValid_bearer, h]
    rfl
  · intro h
    unfold Client.new
    rw [headerValueValid_bearer, h]
    rfl
  · intro e h
    unfold Client.new at h
    rw [headerValueValid_bearer] at h
    cases hv : headerValueValid token <;> rw [hv] at h <;> simp at h

/-- Witness for C10: a typical token is accepted with the fixed base URL and
bearer header; a token containing a newline makes construction panic
(`none`); the error branch is never produced. -/
theorem C10_new_never_errs_witness :
    (headerValueValid "sk-123" = true ∧
      Client.new "sk-123" = some (Except.ok
        { client := { authorization := "Bearer sk-123" }
          base_url := "https://api.openai.com/v1/" })) ∧
    (headerValueValid "a\nb" = false ∧ Client.new "a\nb" = none) ∧
    Client.new "sk-123" ≠
      some (Except.error (Error.AsyncProtocol "invalid token")) := by
  refine ⟨⟨by decide, ?_⟩, ⟨by decide, ?_⟩, ?_⟩
  · exact (C10_new_never_errs "sk-123").1 (by decide)
  · exact (C10_new_never_errs "a\nb").2.1 (by decide)
  · exact (C10_new_never_errs "sk-123").2.2 (Error.AsyncProtocol "invalid token")

end OpenaiApi

